import Mathlib

/-!
# BlogOwnershipService: shallow embedding of the bloglist REST handlers

This file embeds the request-handling logic of the blog-listing backend:

* `controllers/blogs.js` — the GET/POST/DELETE/PUT route handlers;
* `utils/middleware.js`  — `errorHandler`, `tokenExtractor`, `userExtractor`.

Modelling decisions, all read off the source:

* Mongoose documents become plain structures (`Blog`, `User`); the two
  persisted collections become a `Store` of lists.
* `jwt.verify` is cryptographic and external; a request's token is embedded
  by the *outcome* of verification (`VerifyOutcome`): a thrown
  `JsonWebTokenError` (which is also what `jwt.verify(null, …)` raises for a
  missing token), a thrown `TokenExpiredError`, or a decoded payload whose
  `id` field may be absent.
* Express lets a handler keep running after `response.…end()/json()`: only
  the FIRST send commits to the client; later sends raise
  "headers already sent", invisible to the client.  A handler therefore
  returns the ordered list of send attempts together with the new store, and
  `observedStatus` is the status of the head of that list.
* `next(error)` followed by the `errorHandler` middleware is inlined at every
  `catch` site: a thrown Mongoose/JWT error is rendered by `renderError`,
  and an error the `errorHandler` does not match falls through to the
  Express default handler (status 500).
-/

/-- A stored blog document (schema fields of `models/blog.js`):
`{title, author, url, likes, user}` plus the document id.  `user` is the
owning user's id. -/
structure Blog where
  id : String
  title : Option String
  author : Option String
  url : Option String
  likes : Int
  user : String
deriving DecidableEq, Repr

/-- A stored user document: `{username, name, passwordHash, blogs}` plus the
document id; `blogs` is the ordered list of owned blog ids (the back
references).  The password hash plays no role in the claims and is omitted. -/
structure User where
  id : String
  username : String
  name : Option String
  blogs : List String
deriving DecidableEq, Repr

/-- The two persisted collections. -/
structure Store where
  blogs : List Blog
  users : List User
deriving DecidableEq, Repr

/-- The body a response send carries. -/
inductive RespBody where
  | errJson (msg : String)
  | blogJson (b : Blog)
  | jsonNull
  | empty
deriving DecidableEq, Repr

/-- One attempted `response.…` send: a status code and a body.  Only the
first send of a request commits to the client (Express raises
"headers already sent" on the rest). -/
structure Send where
  status : Nat
  body : RespBody
deriving DecidableEq, Repr

/-- The status the client observes: that of the first committed send. -/
def observedStatus (sends : List Send) : Option Nat :=
  sends.head?.map Send.status

/-- The errors that reach `next(error)` in the handlers under study, keyed by
the `error.name` the `errorHandler` middleware switches on.  `typeError` is a
plain JavaScript `TypeError` (e.g. reading `.blogs` of `null`), which the
`errorHandler` does not match. -/
inductive MErr where
  | castError
  | validationError
  | jwtInvalid
  | jwtExpired
  | typeError
deriving DecidableEq, Repr

/-- Embedding of `errorHandler` from `utils/middleware.js`: maps a named error to a
response; an unmatched error is passed on via `next(error)` (`none`). -/
def errorHandler : MErr → Option Send
  | .castError => some ⟨400, .errJson "malformatted id"⟩
  | .validationError => some ⟨400, .errJson "validation failed"⟩
  | .jwtInvalid => some ⟨401, .errJson "JWT invalid"⟩
  | .jwtExpired => some ⟨401, .errJson "JWT expired"⟩
  | .typeError => none

/-- The Express default error handler: anything `errorHandler` passes on is
rendered as a 500. -/
def expressFinalHandler : Send := ⟨500, .errJson "Internal Server Error"⟩

/-- Rendering of an error reaching the error-middleware chain. -/
def renderError (e : MErr) : Send := (errorHandler e).getD expressFinalHandler

/-- A MongoDB ObjectId in string form: 24 hexadecimal characters.  A string
that is not of this shape makes Mongoose id casts throw a `CastError`. -/
def isValidObjectId (s : String) : Bool :=
  s.length == 24 && s.toList.all fun c =>
    c.isDigit || ('a' ≤ c && c ≤ 'f') || ('A' ≤ c && c ≤ 'F')

/-- Embedding of `User.findById`: `findById(undefined)` (a decoded token without an `id`
field) resolves to `null`; otherwise the user with that id is looked up. -/
def findById (users : List User) (id : Option String) : Option User :=
  match id with
  | none => none
  | some i => users.find? fun u => u.id == i

/-- Embedding of `Blog.findByIdAndDelete`: a malformed id throws a `CastError` before
anything is removed; a well-formed id removes the blog with that id (a no-op
when none exists). -/
def findByIdAndDelete (s : Store) (id : String) : Except MErr Store :=
  if isValidObjectId id then
    .ok { s with blogs := s.blogs.filter fun b => b.id != id }
  else
    .error .castError

/-- Modelled from the spec: `models/blog.js` is not among the provided source
files; per the data model (§3) `title` and `url` are required fields and an
empty string does not satisfy a required string validator, so a blog document
is valid exactly when both are present and non-empty. -/
def validBlogDoc (b : Blog) : Bool :=
  (match b.title with | some t => t != "" | none => false) &&
  (match b.url with | some u => u != "" | none => false)

/-- Embedding of `blog.save()` on a new document: runs the schema validators and appends
the document. -/
def saveBlog (s : Store) (b : Blog) : Except MErr Store :=
  if validBlogDoc b then .ok { s with blogs := s.blogs ++ [b] }
  else .error .validationError

/-- Embedding of `user.save()` on an already-loaded user document: writes the modified
document back over the stored one with the same id. -/
def saveUser (s : Store) (u : User) : Store :=
  { s with users := s.users.map fun w => if w.id == u.id then u else w }

/-- The outcome of `jwt.verify(request.token, SECRET)`: a
`JsonWebTokenError` (missing or invalid token), a `TokenExpiredError`, or a
decoded payload `{id?}`. -/
inductive VerifyOutcome where
  | invalid
  | expired
  | payload (id : Option String)
deriving DecidableEq, Repr

/-- JavaScript truthiness of `decodedToken.id` for an optional string:
`undefined` and `''` are falsy. -/
def truthyId : Option String → Bool
  | none => false
  | some s => s != ""

/-- What the `userExtractor` middleware hands to the rest of the chain:
either it called `next(error)` (the route handler is skipped and the error
middleware has already produced the response), or it called `next()` with
`request.user` set. -/
inductive UENext where
  | halted
  | proceed (user : Option User)
deriving DecidableEq, Repr

/-- Embedding of `tokenExtractor` from `utils/middleware.js`: reads the `authorization`
header; `request.token` is the part after `Bearer `, or `null`. -/
def tokenExtractor (authorization : Option String) : Option String :=
  match authorization with
  | some h => if h.startsWith "Bearer " then some (h.replace "Bearer " "") else none
  | none => none

/-- Embedding of `userExtractor` from `utils/middleware.js`.  A `jwt.verify` throw is
caught and sent to the error middleware.  When verification succeeds but the
payload has no truthy `id`, a 401 is sent — and, with no `return`, execution
still reaches `User.findById(decodedToken.id)` and `next()`. -/
def userExtractor (users : List User) (v : VerifyOutcome) : List Send × UENext :=
  match v with
  | .invalid => ([renderError .jwtInvalid], .halted)
  | .expired => ([renderError .jwtExpired], .halted)
  | .payload pid =>
    let pre := if truthyId pid then [] else [Send.mk 401 (.errJson "JWT invalid")]
    (pre, .proceed (findById users pid))

/-- A request body for POST/PUT `/api/blogs`.  `extra` stands for any
property outside the schema fields (the PUT handler copies only the four
permitted fields into the update document, and the strict schema drops
unknown fields on create). -/
structure BlogBody where
  title : Option String
  author : Option String
  url : Option String
  likes : Option Int
  extra : Option String
deriving DecidableEq, Repr

/-- The POST `/api/blogs` route handler body (after `userExtractor`).
`request.user` being `null` makes `request.user.name` throw a `TypeError`.
The blog is built as `{...body, author: request.user.name ?? 'unknown',
likes: body.likes ?? 0, user: request.user.id}` — the spread's `author` and
`user` are overridden — then saved, and the new id is appended to
`request.user.blogs` before `user.save()`.  `freshId` is the id Mongoose
assigns the new document. -/
def postHandler (s : Store) (user : Option User) (freshId : String)
    (body : BlogBody) : List Send × Store :=
  match user with
  | none => ([renderError .typeError], s)
  | some u =>
    let blog : Blog :=
      { id := freshId
        title := body.title
        author := some (u.name.getD "unknown")
        url := body.url
        likes := body.likes.getD 0
        user := u.id }
    match saveBlog s blog with
    | .error e => ([renderError e], s)
    | .ok s1 =>
      let u2 : User := { u with blogs := u.blogs ++ [blog.id] }
      ([Send.mk 201 (.blogJson blog)], saveUser s1 u2)

/-- The DELETE `/api/blogs/:id` route handler body (after `userExtractor`).
`request.user.blogs` on a `null` user throws a `TypeError`.  When the target
id is not among the requester's owned ids a 401 is sent, but — with no
`return` — `Blog.findByIdAndDelete(request.params.id)` still runs, followed
by the `response.status(204).end()` attempt. -/
def deleteHandler (s : Store) (user : Option User) (paramId : String) :
    List Send × Store :=
  match user with
  | none => ([renderError .typeError], s)
  | some u =>
    let authSends :=
      if u.blogs.contains paramId then []
      else [Send.mk 401 (.errJson "unauthorized blog operation")]
    match findByIdAndDelete s paramId with
    | .error e => (authSends ++ [renderError e], s)
    | .ok s1 => (authSends ++ [Send.mk 204 .empty], s1)

/-- Route `DELETE /api/blogs/:id`: `userExtractor` then the delete handler. -/
def deleteRoute (s : Store) (v : VerifyOutcome) (paramId : String) :
    List Send × Store :=
  match userExtractor s.users v with
  | (sends, .halted) => (sends, s)
  | (sends, .proceed user) =>
    let r := deleteHandler s user paramId
    (sends ++ r.1, r.2)

/-- Route `POST /api/blogs`: `userExtractor` then the post handler. -/
def postRoute (s : Store) (v : VerifyOutcome) (freshId : String)
    (body : BlogBody) : List Send × Store :=
  match userExtractor s.users v with
  | (sends, .halted) => (sends, s)
  | (sends, .proceed user) =>
    let r := postHandler s user freshId body
    (sends ++ r.1, r.2)

/-- Keep an updated field when the body supplies it, the stored one
otherwise: a Mongoose update ignores paths whose value is `undefined`. -/
def updField (new old : Option String) : Option String :=
  match new with
  | some v => some v
  | none => old

/-- Same for the numeric `likes` path. -/
def updFieldInt (new : Option Int) (old : Int) : Int :=
  match new with
  | some v => v
  | none => old

/-- The update document the PUT handler builds — exactly the four fields
`{title: body.title, author: body.author, likes: body.likes, url: body.url}`
— applied to a stored blog. -/
def applyUpdate (b : Blog) (body : BlogBody) : Blog :=
  { b with
    title := updField body.title b.title
    author := updField body.author b.author
    likes := updFieldInt body.likes b.likes
    url := updField body.url b.url }

/-- Embedding of `Blog.findByIdAndUpdate(id, fields, {new: true, runValidators: true})`:
a malformed id throws a `CastError`; an absent id yields `null`; otherwise
the merged document is validated and, if valid, stored and returned. -/
def findByIdAndUpdate (s : Store) (id : String) (body : BlogBody) :
    Except MErr (Option Blog × Store) :=
  if isValidObjectId id then
    match s.blogs.find? (fun b => b.id == id) with
    | none => .ok (none, s)
    | some b =>
      let b2 := applyUpdate b body
      if validBlogDoc b2 then
        .ok (some b2, { s with blogs := s.blogs.map fun c => if c.id == id then b2 else c })
      else .error .validationError
  else .error .castError

/-- Route `PUT /api/blogs/:id` (no auth middleware).  When the blog is absent the
handler sends `status(404).end()` but — with no `return` — still attempts
`response.json(updatedBlog)`, i.e. a second send of `null`. -/
def putRoute (s : Store) (paramId : String) (body : BlogBody) :
    List Send × Store :=
  match findByIdAndUpdate s paramId body with
  | .error e => ([renderError e], s)
  | .ok (none, s1) => ([Send.mk 404 .empty, Send.mk 404 .jsonNull], s1)
  | .ok (some b, s1) => ([Send.mk 200 (.blogJson b)], s1)

/-! ## Concrete sample data, used by the closed theorems and witnesses -/

/-- A well-formed user id. -/
def uid1 : String := "111111111111111111111111"

/-- A second well-formed user id. -/
def uid2 : String := "222222222222222222222222"

/-- A well-formed blog id. -/
def bid1 : String := "aaaaaaaaaaaaaaaaaaaaaaaa"

/-- A second well-formed blog id, used as the fresh id of a created blog. -/
def bid2 : String := "bbbbbbbbbbbbbbbbbbbbbbbb"

/-- A syntactically malformed id, as in the repository's own delete test. -/
def badId : String := "---invalid-fomat---"

/-- A user owning `blog1`. -/
def user1 : User := { id := uid1, username := "root", name := some "Root", blogs := [bid1] }

/-- A user owning nothing; this user document has no `name`. -/
def user2 : User := { id := uid2, username := "other", name := none, blogs := [] }

/-- A stored blog owned by `user1`. -/
def blog1 : Blog :=
  { id := bid1, title := some "First", author := some "Root"
    url := some "http://example.com/first", likes := 3, user := uid1 }

/-- A sample store: one blog, two users. -/
def sampleStore : Store := { blogs := [blog1], users := [user1, user2] }

/-- A valid creation body: title and url present, likes and author absent. -/
def cBody : BlogBody :=
  { title := some "T", author := none, url := some "http://example.com/new"
    likes := none, extra := none }

/-- A PUT body touching two permitted fields and carrying an extraneous
property. -/
def putBody : BlogBody :=
  { title := some "New", author := none, url := none
    likes := some 10, extra := some "should-not-contain-this" }

/-- The document the POST handler constructs before saving (spelled out so
that lemmas can name it): `{...body, author: request.user.name ?? 'unknown',
likes: body.likes ?? 0, user: request.user.id}` with the fresh document id. -/
def createdDoc (u : User) (freshId : String) (body : BlogBody) : Blog :=
  { id := freshId
    title := body.title
    author := some (u.name.getD "unknown")
    url := body.url
    likes := body.likes.getD 0
    user := u.id }

/-! ## Shared computation lemmas -/

/-- Computation of a successful `POST /api/blogs`: a resolvable truthy token
id and a valid document yield the 201 response, the appended blog, and the
rewritten owner. -/
theorem postRoute_ok (s : Store) (u : User) (uid freshId : String)
    (body : BlogBody)
    (hid : uid ≠ "")
    (hu : findById s.users (some uid) = some u)
    (hval : validBlogDoc (createdDoc u freshId body) = true) :
    postRoute s (VerifyOutcome.payload (some uid)) freshId body =
      ([Send.mk 201 (RespBody.blogJson (createdDoc u freshId body))],
        { blogs := s.blogs ++ [createdDoc u freshId body]
          users := s.users.map fun w =>
            if w.id == u.id then { u with blogs := u.blogs ++ [freshId] } else w }) := by
  have htr : truthyId (some uid) = true := by simp [truthyId, hid]
  simp only [createdDoc] at hval
  simp [postRoute, userExtractor, htr, hu, postHandler, saveBlog, hval,
    saveUser, createdDoc]

/-- Membership of the requester in the users collection, extracted from a
successful `findById`. -/
theorem mem_of_findById (users : List User) (uid : String) (u : User)
    (hu : findById users (some uid) = some u) : u ∈ users := by
  simp only [findById] at hu
  exact List.mem_of_find?_eq_some hu

/-! ## Claim theorems -/

/-- Claim C1, evaluated on the code: with a valid token for `user2` and the
well-formed id `bid1` of a blog `user2` does not own, the delete route does
commit the 401 response first — but, the handler lacking a `return`,
`Blog.findByIdAndDelete` still runs and the targeted blog IS removed from
storage, contradicting the claim (and the repository's own test, which
expects the blog count unchanged). -/
theorem c1_nonowner_delete_removes_blog :
    (deleteRoute sampleStore (VerifyOutcome.payload (some uid2)) bid1).1 =
      [Send.mk 401 (RespBody.errJson "unauthorized blog operation"),
       Send.mk 204 RespBody.empty] ∧
    observedStatus (deleteRoute sampleStore (VerifyOutcome.payload (some uid2)) bid1).1 =
      some 401 ∧
    (deleteRoute sampleStore (VerifyOutcome.payload (some uid2)) bid1).2.blogs = [] :=
  ⟨rfl, rfl, rfl⟩

/-- Claim C2, evaluated on the code: with a valid token for `user1` and the
malformed id `badId`, the first committed response is the 401 of the
ownership check (a malformed id can never be among the owned ids), not the
claimed 400; the storage call `Blog.findByIdAndDelete` IS still attempted and
only then raises the `CastError` whose 400 rendering can no longer commit.
The store is unchanged. -/
theorem c2_malformed_id_delete_answers_401 :
    (deleteRoute sampleStore (VerifyOutcome.payload (some uid1)) badId).1 =
      [Send.mk 401 (RespBody.errJson "unauthorized blog operation"),
       Send.mk 400 (RespBody.errJson "malformatted id")] ∧
    observedStatus (deleteRoute sampleStore (VerifyOutcome.payload (some uid1)) badId).1 =
      some 401 ∧
    (deleteRoute sampleStore (VerifyOutcome.payload (some uid1)) badId).2 = sampleStore :=
  ⟨rfl, rfl, rfl⟩

/-- Claim C7: a create request whose bearer token is missing or invalid
(`jwt.verify` throws `JsonWebTokenError`, also for a `null` token) or expired
(`TokenExpiredError`) is answered 401 and persists nothing. -/
theorem c7_create_unauthenticated_401_no_write (s : Store) (freshId : String)
    (body : BlogBody) (v : VerifyOutcome)
    (h : v = VerifyOutcome.invalid ∨ v = VerifyOutcome.expired) :
    observedStatus (postRoute s v freshId body).1 = some 401 ∧
    (postRoute s v freshId body).2 = s := by
  rcases h with rfl | rfl <;> exact ⟨rfl, rfl⟩

/-- Witness for C7 at a concrete input: an invalid token on the sample store. -/
theorem c7_create_unauthenticated_401_no_write_witness :
    (VerifyOutcome.invalid = VerifyOutcome.invalid ∨
      VerifyOutcome.invalid = VerifyOutcome.expired) ∧
    (observedStatus (postRoute sampleStore VerifyOutcome.invalid bid2 cBody).1 = some 401 ∧
      (postRoute sampleStore VerifyOutcome.invalid bid2 cBody).2 = sampleStore) :=
  ⟨Or.inl rfl,
    c7_create_unauthenticated_401_no_write sampleStore bid2 cBody
      VerifyOutcome.invalid (Or.inl rfl)⟩

/-- Claim C10: when the token verifies but the decoded payload has no `id`,
`userExtractor` sends a 401 — yet still calls `next()` (`UENext.proceed`),
handing the route handler `request.user` resolved from an undefined id
(`findById _ none = none`); on the delete route the handler then runs and
crashes on the `null` user, surfacing the Express default 500 attempt after
the committed 401. -/
theorem c10_missing_payload_id_sends_401_but_proceeds (users : List User)
    (s : Store) (pid : String) :
    userExtractor users (VerifyOutcome.payload none) =
      ([Send.mk 401 (RespBody.errJson "JWT invalid")], UENext.proceed none) ∧
    deleteRoute s (VerifyOutcome.payload none) pid =
      ([Send.mk 401 (RespBody.errJson "JWT invalid"), expressFinalHandler], s) :=
  ⟨rfl, rfl⟩

/-- Claim C3: for a valid token (truthy decoded id resolving to a user) and a
body carrying a non-empty title and url, the create succeeds with 201, the
store gains a blog whose `user` field is the requester's id, and the
requester's `blogs` sequence gains the new blog's id (bidirectional
consistency). -/
theorem c3_create_bidirectional (s : Store) (u : User) (uid freshId : String)
    (body : BlogBody)
    (hid : uid ≠ "")
    (hu : findById s.users (some uid) = some u)
    (ht : ∃ t, body.title = some t ∧ t ≠ "")
    (hw : ∃ w, body.url = some w ∧ w ≠ "") :
    observedStatus (postRoute s (VerifyOutcome.payload (some uid)) freshId body).1 =
      some 201 ∧
    (∃ b, b ∈ (postRoute s (VerifyOutcome.payload (some uid)) freshId body).2.blogs ∧
      b.id = freshId ∧ b.user = u.id) ∧
    (∃ u2, u2 ∈ (postRoute s (VerifyOutcome.payload (some uid)) freshId body).2.users ∧
      u2.id = u.id ∧ u2.blogs = u.blogs ++ [freshId]) := by
  obtain ⟨t, ht1, ht2⟩ := ht
  obtain ⟨w, hw1, hw2⟩ := hw
  have hval : validBlogDoc (createdDoc u freshId body) = true := by
    simp [validBlogDoc, createdDoc, ht1, hw1, ht2, hw2]
  rw [postRoute_ok s u uid freshId body hid hu hval]
  refine ⟨rfl, ⟨createdDoc u freshId body, ?_, rfl, rfl⟩,
    ⟨{ u with blogs := u.blogs ++ [freshId] }, ?_, rfl, rfl⟩⟩
  · exact List.mem_append_right _ (List.mem_singleton.mpr rfl)
  · have hm : u ∈ s.users := mem_of_findById s.users uid u hu
    exact List.mem_map.mpr ⟨u, hm, by simp⟩

/-- Witness for C3: `user1` (token id `uid1`) creates `cBody` with fresh id
`bid2` on the sample store. -/
theorem c3_create_bidirectional_witness :
    uid1 ≠ "" ∧
    findById sampleStore.users (some uid1) = some user1 ∧
    (∃ t, cBody.title = some t ∧ t ≠ "") ∧
    (∃ w, cBody.url = some w ∧ w ≠ "") ∧
    (observedStatus (postRoute sampleStore (VerifyOutcome.payload (some uid1)) bid2 cBody).1 =
        some 201 ∧
      (∃ b, b ∈ (postRoute sampleStore (VerifyOutcome.payload (some uid1)) bid2 cBody).2.blogs ∧
        b.id = bid2 ∧ b.user = user1.id) ∧
      (∃ u2, u2 ∈ (postRoute sampleStore (VerifyOutcome.payload (some uid1)) bid2 cBody).2.users ∧
        u2.id = user1.id ∧ u2.blogs = user1.blogs ++ [bid2])) :=
  ⟨by decide, by decide, ⟨"T", rfl, by decide⟩, ⟨"http://example.com/new", rfl, by decide⟩,
    c3_create_bidirectional sampleStore user1 uid1 bid2 cBody (by decide) (by decide)
      ⟨"T", rfl, by decide⟩ ⟨"http://example.com/new", rfl, by decide⟩⟩

/-- Claim C4: for a well-formed id, the update route answers 404 (the first
committed send; the stray `response.json(null)` attempt cannot commit) and
leaves the store unchanged when no blog has that id, and on success answers
200 carrying the updated blog. -/
theorem c4_put_notfound_404_success_200 (s : Store) (pid : String)
    (body : BlogBody)
    (hval : isValidObjectId pid = true) :
    (s.blogs.find? (fun b => b.id == pid) = none →
      putRoute s pid body = ([Send.mk 404 RespBody.empty, Send.mk 404 RespBody.jsonNull], s) ∧
      observedStatus (putRoute s pid body).1 = some 404) ∧
    (∀ b, s.blogs.find? (fun c => c.id == pid) = some b →
      validBlogDoc (applyUpdate b body) = true →
      putRoute s pid body =
        ([Send.mk 200 (RespBody.blogJson (applyUpdate b body))],
          { s with blogs := s.blogs.map fun c => if c.id == pid then applyUpdate b body else c }) ∧
      observedStatus (putRoute s pid body).1 = some 200) := by
  constructor
  · intro hnone
    have h1 : putRoute s pid body =
        ([Send.mk 404 RespBody.empty, Send.mk 404 RespBody.jsonNull], s) := by
      simp [putRoute, findByIdAndUpdate, hval, hnone]
    exact ⟨h1, by rw [h1]; rfl⟩
  · intro b hsome hok
    have h1 : putRoute s pid body =
        ([Send.mk 200 (RespBody.blogJson (applyUpdate b body))],
          { s with blogs := s.blogs.map fun c => if c.id == pid then applyUpdate b body else c }) := by
      simp [putRoute, findByIdAndUpdate, hval, hsome, hok]
    exact ⟨h1, by rw [h1]; rfl⟩

/-- Witness for C4: updating `blog1` with `putBody` on the sample store (its
well-formed id resolves, so the success branch fires; the 404 branch holds
vacuously there). -/
theorem c4_put_notfound_404_success_200_witness :
    isValidObjectId bid1 = true ∧
    ((sampleStore.blogs.find? (fun b => b.id == bid1) = none →
      putRoute sampleStore bid1 putBody =
        ([Send.mk 404 RespBody.empty, Send.mk 404 RespBody.jsonNull], sampleStore) ∧
      observedStatus (putRoute sampleStore bid1 putBody).1 = some 404) ∧
    (∀ b, sampleStore.blogs.find? (fun c => c.id == bid1) = some b →
      validBlogDoc (applyUpdate b putBody) = true →
      putRoute sampleStore bid1 putBody =
        ([Send.mk 200 (RespBody.blogJson (applyUpdate b putBody))],
          { sampleStore with
            blogs := sampleStore.blogs.map fun c => if c.id == bid1 then applyUpdate b putBody else c }) ∧
      observedStatus (putRoute sampleStore bid1 putBody).1 = some 200)) :=
  ⟨by decide, c4_put_notfound_404_success_200 sampleStore bid1 putBody (by decide)⟩

/-- Claim C5: a successful delete (valid token, target id among the
requester's owned ids, well-formed id) answers 204 and leaves the users
collection — in particular the owner's `blogs` sequence, which still lists
the deleted id — completely untouched. -/
theorem c5_delete_keeps_user_backref (s : Store) (u : User) (uid pid : String)
    (hid : uid ≠ "")
    (hu : findById s.users (some uid) = some u)
    (hown : u.blogs.contains pid = true)
    (hvp : isValidObjectId pid = true) :
    observedStatus (deleteRoute s (VerifyOutcome.payload (some uid)) pid).1 = some 204 ∧
    (deleteRoute s (VerifyOutcome.payload (some uid)) pid).2.users = s.users ∧
    findById (deleteRoute s (VerifyOutcome.payload (some uid)) pid).2.users (some uid) = some u ∧
    u.blogs.contains pid = true := by
  have htr : truthyId (some uid) = true := by simp [truthyId, hid]
  have h1 : deleteRoute s (VerifyOutcome.payload (some uid)) pid =
      ([Send.mk 204 RespBody.empty], { s with blogs := s.blogs.filter fun b => b.id != pid }) := by
    have hmem : pid ∈ u.blogs := by simpa using hown
    simp [deleteRoute, userExtractor, htr, hu, deleteHandler, hmem, findByIdAndDelete, hvp]
  rw [h1]
  exact ⟨rfl, rfl, hu, hown⟩

/-- Witness for C5: `user1` deletes its own blog `bid1` on the sample store. -/
theorem c5_delete_keeps_user_backref_witness :
    uid1 ≠ "" ∧
    findById sampleStore.users (some uid1) = some user1 ∧
    user1.blogs.contains bid1 = true ∧
    isValidObjectId bid1 = true ∧
    (observedStatus (deleteRoute sampleStore (VerifyOutcome.payload (some uid1)) bid1).1 =
        some 204 ∧
      (deleteRoute sampleStore (VerifyOutcome.payload (some uid1)) bid1).2.users =
        sampleStore.users ∧
      findById (deleteRoute sampleStore (VerifyOutcome.payload (some uid1)) bid1).2.users
        (some uid1) = some user1 ∧
      user1.blogs.contains bid1 = true) :=
  ⟨by decide, by decide, by decide, by decide,
    c5_delete_keeps_user_backref sampleStore user1 uid1 bid1
      (by decide) (by decide) (by decide) (by decide)⟩

/-- Claim C6: the update route never touches stored fields outside
{title, author, likes, url} — the merged document keeps the blog's `id` and
`user` — and a body property outside those four (the `extra` component) is
silently dropped: the route's outcome does not depend on it at all. -/
theorem c6_update_frame (s : Store) (pid : String) (body : BlogBody)
    (e : Option String) (b : Blog)
    (hval : isValidObjectId pid = true)
    (hsome : s.blogs.find? (fun c => c.id == pid) = some b)
    (hok : validBlogDoc (applyUpdate b body) = true) :
    (applyUpdate b body).id = b.id ∧
    (applyUpdate b body).user = b.user ∧
    putRoute s pid { body with extra := e } = putRoute s pid body ∧
    (putRoute s pid body).1 = [Send.mk 200 (RespBody.blogJson (applyUpdate b body))] := by
  refine ⟨rfl, rfl, rfl, ?_⟩
  simp [putRoute, findByIdAndUpdate, hval, hsome, hok]

/-- Witness for C6: updating `blog1` with `putBody` (which carries an
extraneous property) on the sample store, varying the extraneous component. -/
theorem c6_update_frame_witness :
    isValidObjectId bid1 = true ∧
    sampleStore.blogs.find? (fun c => c.id == bid1) = some blog1 ∧
    validBlogDoc (applyUpdate blog1 putBody) = true ∧
    ((applyUpdate blog1 putBody).id = blog1.id ∧
      (applyUpdate blog1 putBody).user = blog1.user ∧
      putRoute sampleStore bid1 { putBody with extra := some "another-dropped-field" } =
        putRoute sampleStore bid1 putBody ∧
      (putRoute sampleStore bid1 putBody).1 =
        [Send.mk 200 (RespBody.blogJson (applyUpdate blog1 putBody))]) :=
  ⟨by decide, by decide, by decide,
    c6_update_frame sampleStore bid1 putBody (some "another-dropped-field") blog1
      (by decide) (by decide) (by decide)⟩

/-- Claim C8: on a successful create whose body omits `author` and `likes`,
the stored blog's author is the requesting user's name — `"unknown"` when the
user document has no name — and its likes is 0. -/
theorem c8_create_defaults (s : Store) (u : User) (uid freshId : String)
    (body : BlogBody)
    (hid : uid ≠ "")
    (hu : findById s.users (some uid) = some u)
    (ht : ∃ t, body.title = some t ∧ t ≠ "")
    (hw : ∃ w, body.url = some w ∧ w ≠ "")
    (hauthor : body.author = none)
    (hlikes : body.likes = none) :
    ∃ b, (postRoute s (VerifyOutcome.payload (some uid)) freshId body).1 =
        [Send.mk 201 (RespBody.blogJson b)] ∧
      b.author = some (u.name.getD "unknown") ∧
      b.likes = 0 := by
  obtain ⟨t, ht1, ht2⟩ := ht
  obtain ⟨w, hw1, hw2⟩ := hw
  have hval : validBlogDoc (createdDoc u freshId body) = true := by
    simp [validBlogDoc, createdDoc, ht1, hw1, ht2, hw2]
  refine ⟨createdDoc u freshId body, ?_, rfl, ?_⟩
  · rw [postRoute_ok s u uid freshId body hid hu hval]
  · simp [createdDoc, hlikes]

/-- Witness for C8: `user2`, whose document has no `name`, creates `cBody`
(no author, no likes) with fresh id `bid2` on the sample store. -/
theorem c8_create_defaults_witness :
    uid2 ≠ "" ∧
    findById sampleStore.users (some uid2) = some user2 ∧
    (∃ t, cBody.title = some t ∧ t ≠ "") ∧
    (∃ w, cBody.url = some w ∧ w ≠ "") ∧
    cBody.author = none ∧
    cBody.likes = none ∧
    (∃ b, (postRoute sampleStore (VerifyOutcome.payload (some uid2)) bid2 cBody).1 =
        [Send.mk 201 (RespBody.blogJson b)] ∧
      b.author = some (user2.name.getD "unknown") ∧
      b.likes = 0) :=
  ⟨by decide, by decide, ⟨"T", rfl, by decide⟩, ⟨"http://example.com/new", rfl, by decide⟩,
    rfl, rfl,
    c8_create_defaults sampleStore user2 uid2 bid2 cBody (by decide) (by decide)
      ⟨"T", rfl, by decide⟩ ⟨"http://example.com/new", rfl, by decide⟩ rfl rfl⟩

/-- Claim C9: the body's `author` is always overridden — the stored author is
the requesting user's name (or `"unknown"`) even when the body supplies an
explicit author, and the route's whole outcome is the same as if the body had
no author at all. -/
theorem c9_author_always_overridden (s : Store) (u : User)
    (uid freshId a : String) (body : BlogBody)
    (hid : uid ≠ "")
    (hu : findById s.users (some uid) = some u)
    (ht : ∃ t, body.title = some t ∧ t ≠ "")
    (hw : ∃ w, body.url = some w ∧ w ≠ "")
    (ha : body.author = some a) :
    (∃ b, (postRoute s (VerifyOutcome.payload (some uid)) freshId body).1 =
        [Send.mk 201 (RespBody.blogJson b)] ∧
      b.author = some (u.name.getD "unknown")) ∧
    postRoute s (VerifyOutcome.payload (some uid)) freshId body =
      postRoute s (VerifyOutcome.payload (some uid)) freshId { body with author := none } := by
  obtain ⟨t, ht1, ht2⟩ := ht
  obtain ⟨w, hw1, hw2⟩ := hw
  have hval : validBlogDoc (createdDoc u freshId body) = true := by
    simp [validBlogDoc, createdDoc, ht1, hw1, ht2, hw2]
  refine ⟨⟨createdDoc u freshId body, ?_, rfl⟩, rfl⟩
  rw [postRoute_ok s u uid freshId body hid hu hval]

/-- Witness for C9: `user1` supplies an explicit author `"Mallory"`; the
stored author is still `user1`'s name. -/
theorem c9_author_always_overridden_witness :
    uid1 ≠ "" ∧
    findById sampleStore.users (some uid1) = some user1 ∧
    (∃ t, BlogBody.title { cBody with author := some "Mallory" } = some t ∧ t ≠ "") ∧
    (∃ w, BlogBody.url { cBody with author := some "Mallory" } = some w ∧ w ≠ "") ∧
    BlogBody.author { cBody with author := some "Mallory" } = some "Mallory" ∧
    ((∃ b, (postRoute sampleStore (VerifyOutcome.payload (some uid1)) bid2
          { cBody with author := some "Mallory" }).1 =
        [Send.mk 201 (RespBody.blogJson b)] ∧
      b.author = some (user1.name.getD "unknown")) ∧
    postRoute sampleStore (VerifyOutcome.payload (some uid1)) bid2
        { cBody with author := some "Mallory" } =
      postRoute sampleStore (VerifyOutcome.payload (some uid1)) bid2
        { { cBody with author := some "Mallory" } with author := none }) :=
  ⟨by decide, by decide, ⟨"T", rfl, by decide⟩, ⟨"http://example.com/new", rfl, by decide⟩,
    rfl,
    c9_author_always_overridden sampleStore user1 uid1 bid2 "Mallory"
      { cBody with author := some "Mallory" } (by decide) (by decide)
      ⟨"T", rfl, by decide⟩ ⟨"http://example.com/new", rfl, by decide⟩ rfl⟩
